import Mathlib

/-!
Verification of the `WebSocketTransport` core of mcp-luno.

Shallow embedding of `src/luno_mcp_server/transport.py` (class
`WebSocketTransport`): the per-client rate limiter `_check_rate_limit`,
the per-connection receive loop of `_handle_client` (size check, rate
check, dispatch, reply, exception handling, `finally` cleanup), the
best-effort broadcast `_broadcast_message`, and the TLS setup
`_create_ssl_context` together with the scheme choice in `run`.

Python wall-clock time is modelled as `Nat`; the rate-limit table
(`self.client_rate_limits`, a dict keyed by client identity) as a
function `String → Option RateWindow`; the `websockets` connection
object as an id plus explicit environmental outcomes for sends; the
pluggable request handler as a function `String → HandlerResult` where
`HandlerResult.raises` stands for an unexpected exception.
-/

namespace LunoTransport

/-- One entry of `self.client_rate_limits[client_info]`:
`{"count": ..., "reset_time": ...}`. -/
structure RateWindow where
  count : Nat
  reset_time : Nat
deriving DecidableEq, Repr

/-- The `client_rate_limits` dict, keyed by client identity. -/
def Table : Type := String → Option RateWindow

/-- Dict assignment `self.client_rate_limits[client] = w`. -/
def updateTable (t : Table) (client : String) (w : RateWindow) : Table :=
  fun c => if c = client then some w else t c

/-- The empty dict `{}` the transport starts with. -/
def emptyTable : Table := fun _ => none

/-- `WebSocketTransport._check_rate_limit` (transport.py lines 98-131),
with `current_time` passed explicitly.  Returns the boolean result and
the updated `client_rate_limits` table.

Mirrors the source: a new client is initialised with count 0 and
reset 60 seconds ahead; a window whose `reset_time` lies strictly in
the past is reinitialised the same way; then the count is compared
against the configured limit, and only an allowed call increments. -/
def _check_rate_limit (rate_limit : Nat) (t : Table) (client : String)
    (now : Nat) : Bool × Table :=
  -- "Initialize rate limiting data for new clients"
  let w0 : RateWindow :=
    match t client with
    | none => ⟨0, now + 60⟩
    | some w => w
  -- "Reset count if the time window has passed": current_time > reset_time
  let w1 : RateWindow := if w0.reset_time < now then ⟨0, now + 60⟩ else w0
  -- "Check if the client has exceeded the rate limit"
  if rate_limit ≤ w1.count then
    (false, updateTable t client w1)
  else
    -- "Increment the count"
    (true, updateTable t client ⟨w1.count + 1, w1.reset_time⟩)

/-- `k` successive `_check_rate_limit` calls for the same client at the
same instant, collecting the returned booleans. -/
def rateCalls (rate_limit : Nat) (client : String) (now : Nat) (t : Table) :
    Nat → List Bool × Table
  | 0 => ([], t)
  | k + 1 =>
    let p := rateCalls rate_limit client now t k
    let q := _check_rate_limit rate_limit p.2 client now
    (p.1 ++ [q.1], q.2)

/-- The JSON-RPC error objects the transport itself builds and sends
(`json.dumps({"jsonrpc": "2.0", "error": {"code": ..., "message": ...},
"id": None})`).  `id = none` models `"id": null`. -/
structure JsonRpcError where
  jsonrpc : String
  code : Int
  message : String
  id : Option String
deriving DecidableEq, Repr

/-- The response sent for an oversized message (transport.py lines 162-173). -/
def messageTooLargeError : JsonRpcError :=
  ⟨"2.0", -32600, "Message too large", none⟩

/-- The response sent for a rate-limited message (transport.py lines 178-189). -/
def rateLimitExceededError : JsonRpcError :=
  ⟨"2.0", -32000, "Rate limit exceeded", none⟩

/-- What the connection loop sent back to the client, in order. -/
inductive Output where
  | sentError (e : JsonRpcError)
  | sentText (s : String)
deriving DecidableEq, Repr

/-- Environmental outcome of `await websocket.send(response)` for one
handler response: success, `websockets.ConnectionClosed`, or some other
exception. -/
inductive SendOutcome where
  | ok
  | closedErr
  | otherErr
deriving DecidableEq, Repr

/-- One inbound message of the `async for message in websocket` stream:
its payload, the event-loop time at which it is processed, and the
outcome the environment gives to the send of the handler response. -/
structure InMsg where
  payload : String
  time : Nat
  sendOutcome : SendOutcome
deriving DecidableEq, Repr

/-- Result of `await request_handler(message)`: a response string, or an
unexpected exception escaping the handler. -/
inductive HandlerResult where
  | ok (response : String)
  | raises
deriving DecidableEq, Repr

/-- How the receive loop of `_handle_client` ended: the message stream
was exhausted (client closed), `websockets.ConnectionClosed` was caught
(transport.py line 200), or a generic `Exception` was caught
(transport.py line 202). -/
inductive LoopExit where
  | streamEnded
  | connClosed
  | errorLogged
deriving DecidableEq, Repr

/-- Result of running the receive loop on a message stream: what was
sent, how the loop ended, the final rate-limit table, and how many
times `request_handler` was invoked. -/
structure LoopResult where
  outputs : List Output
  exit : LoopExit
  table : Table
  handledCount : Nat

/-- The `async for message in websocket` body of
`WebSocketTransport._handle_client` (transport.py lines 156-203).

Per message: the size check (strict `>`) sends `messageTooLargeError`
and continues; the rate check sends `rateLimitExceededError` and
continues; otherwise the handler is invoked and its response sent.
The `try` wrapping the whole loop means any exception raised by the
handler or by the send terminates the loop: `ConnectionClosed` is
caught by the first `except` clause, anything else by the generic
`except Exception` clause. -/
def processMessages (max_message_size rate_limit : Nat)
    (handler : String → HandlerResult) (client : String) :
    Table → List InMsg → LoopResult
  | t, [] => ⟨[], .streamEnded, t, 0⟩
  | t, e :: rest =>
    if max_message_size < e.payload.length then
      let r := processMessages max_message_size rate_limit handler client t rest
      ⟨.sentError messageTooLargeError :: r.outputs, r.exit, r.table, r.handledCount⟩
    else
      let rc := _check_rate_limit rate_limit t client e.time
      if rc.1 then
        match handler e.payload with
        | .raises => ⟨[], .errorLogged, rc.2, 1⟩
        | .ok resp =>
          match e.sendOutcome with
          | .ok =>
            let r := processMessages max_message_size rate_limit handler client rc.2 rest
            ⟨.sentText resp :: r.outputs, r.exit, r.table, r.handledCount + 1⟩
          | .closedErr => ⟨[], .connClosed, rc.2, 1⟩
          | .otherErr => ⟨[], .errorLogged, rc.2, 1⟩
      else
        let r := processMessages max_message_size rate_limit handler client rc.2 rest
        ⟨.sentError rateLimitExceededError :: r.outputs, r.exit, r.table, r.handledCount⟩

/-- Result of `WebSocketTransport._handle_client` for one connection. -/
structure ClientResult where
  /-- `await websocket.close(code, reason)` issued at admission time,
  if any (the capacity-rejection close frame). -/
  closeFrame : Option (Nat × String)
  /-- The registry contents while this connection was being served
  (`none` if the connection was rejected and never served). -/
  servingConnections : Option (List Nat)
  outputs : List Output
  exit : Option LoopExit
  /-- The registry after the `finally` cleanup ran. -/
  connections : List Nat
  table : Table
  handledCount : Nat

/-- `WebSocketTransport._handle_client` (transport.py lines 133-208).

If the registry already holds at least `max_connections` entries the
new connection is closed with code 1008 and never served; otherwise it
is appended to `active_connections`, the receive loop runs, and the
`finally` block removes the connection from the registry
(`if websocket in active: active.remove(websocket)`, i.e. erase the
first occurrence if present) on every exit path. -/
def _handle_client (max_connections max_message_size rate_limit : Nat)
    (connections : List Nat) (t : Table) (connId : Nat) (client : String)
    (handler : String → HandlerResult) (events : List InMsg) : ClientResult :=
  if max_connections ≤ connections.length then
    ⟨some (1008, "Maximum connections reached"), none, [], none, connections, t, 0⟩
  else
    let serving := connections ++ [connId]
    let r := processMessages max_message_size rate_limit handler client t events
    ⟨none, some serving, r.outputs, some r.exit, serving.erase connId,
      r.table, r.handledCount⟩

/-- A registered connection as the broadcast loop sees it: its identity
and whether it is still open (a closed one raises
`websockets.exceptions.ConnectionClosed` on send). -/
structure Conn where
  id : Nat
  isOpen : Bool
deriving DecidableEq, Repr

/-- A JSON value as passed to `json.dumps`, enough for the notification
object. -/
inductive JVal where
  | s (v : String)
  | obj (fields : List (String × JVal))

/-- The dict built by `_broadcast_message` (transport.py lines 221-227):
`{"jsonrpc": "2.0", "method": "server_notification",
"params": {"message": message}}` — note the absence of an `"id"` key. -/
def notificationObject (message : String) : List (String × JVal) :=
  [("jsonrpc", .s "2.0"), ("method", .s "server_notification"),
   ("params", .obj [("message", .s message)])]

/-- `await websocket.send(notification)` inside the broadcast loop:
succeeds for an open connection, raises `ConnectionClosed` (modelled as
`.error`) for a closed one. -/
def sendToConn (c : Conn) : Except Unit Unit :=
  if c.isOpen then .ok () else .error ()

/-- The `for websocket in self.active_connections.copy()` loop of
`_broadcast_message`: try the send, swallow `ConnectionClosed`
(`except ...: pass`), keep going.  Returns the ids that received the
notification, in registry order. -/
def broadcastLoop : List Conn → List Nat
  | [] => []
  | c :: rest =>
    match sendToConn c with
    | .ok _ => c.id :: broadcastLoop rest
    | .error _ => broadcastLoop rest

/-- `WebSocketTransport._broadcast_message` (transport.py lines 210-235):
returns early when the registry is empty; otherwise builds the
notification once and attempts delivery to every registered connection.
The result is the notification it built (if any) and the ids of the
connections that received it. -/
def _broadcast_message (conns : List Conn) (message : String) :
    Option (List (String × JVal)) × List Nat :=
  if conns = [] then (none, [])
  else (some (notificationObject message), broadcastLoop conns)

/-- The filesystem/TLS facts `_create_ssl_context` depends on: whether
`os.path.exists` holds for the certificate and the key paths, and
whether `ssl_context.load_cert_chain` succeeds on the pair. -/
structure SslEnv where
  cert_file_exists : Bool
  key_file_exists : Bool
  cert_chain_loads : Bool
deriving DecidableEq, Repr

/-- `WebSocketTransport._create_ssl_context` (transport.py lines
255-281): if either file is missing, log and return `None`; otherwise
try to load the pair, returning the context on success and `None`
(after logging) when loading raises.  Total: no exception escapes. -/
def _create_ssl_context (env : SslEnv) : Option Unit :=
  if !env.cert_file_exists || !env.key_file_exists then none
  else if env.cert_chain_loads then some () else none

/-- The scheme chosen in `WebSocketTransport.run` (transport.py line
302): `protocol = "wss" if ssl_context else "ws"`. -/
def serverScheme (env : SslEnv) : String :=
  match _create_ssl_context env with
  | some _ => "wss"
  | none => "ws"

/-! ## Helper lemmas -/

theorem updateTable_same (t : Table) (c : String) (w : RateWindow) :
    updateTable t c w c = some w := by
  simp [updateTable]

theorem check_fresh (rl : Nat) (t : Table) (c : String) (now : Nat)
    (ht : t c = none) :
    _check_rate_limit rl t c now =
      if rl = 0 then (false, updateTable t c ⟨0, now + 60⟩)
      else (true, updateTable t c ⟨1, now + 60⟩) := by
  simp only [_check_rate_limit, ht]
  have hres : ¬ (now + 60 < now) := by omega
  simp only [if_neg hres]
  by_cases h0 : rl = 0
  · subst h0; simp
  · have : ¬ rl ≤ 0 := by omega
    simp [this, h0]

theorem check_at_window (rl : Nat) (t : Table) (c : String) (now : Nat)
    (j reset : Nat) (ht : t c = some ⟨j, reset⟩) (hres : ¬ reset < now) :
    _check_rate_limit rl t c now =
      if rl ≤ j then (false, updateTable t c ⟨j, reset⟩)
      else (true, updateTable t c ⟨j + 1, reset⟩) := by
  simp only [_check_rate_limit, ht, if_neg hres]

theorem check_reset_time (rl : Nat) (t : Table) (c : String) (now : Nat)
    (j reset : Nat) (ht : t c = some ⟨j, reset⟩) (hres : reset < now) :
    _check_rate_limit rl t c now =
      if rl = 0 then (false, updateTable t c ⟨0, now + 60⟩)
      else (true, updateTable t c ⟨1, now + 60⟩) := by
  simp only [_check_rate_limit, ht, if_pos hres]
  by_cases h0 : rl = 0
  · subst h0; simp
  · have : ¬ rl ≤ 0 := by omega
    simp [this, h0]

theorem process_nil (msz rl : Nat) (h : String → HandlerResult) (c : String)
    (t : Table) :
    processMessages msz rl h c t [] = ⟨[], .streamEnded, t, 0⟩ := rfl

theorem process_cons_oversized (msz rl : Nat) (h : String → HandlerResult)
    (c : String) (t : Table) (e : InMsg) (rest : List InMsg)
    (hsize : msz < e.payload.length) :
    processMessages msz rl h c t (e :: rest) =
      ⟨.sentError messageTooLargeError ::
          (processMessages msz rl h c t rest).outputs,
        (processMessages msz rl h c t rest).exit,
        (processMessages msz rl h c t rest).table,
        (processMessages msz rl h c t rest).handledCount⟩ := by
  simp only [processMessages, if_pos hsize]

theorem process_cons_denied (msz rl : Nat) (h : String → HandlerResult)
    (c : String) (t : Table) (e : InMsg) (rest : List InMsg)
    (hsize : ¬ msz < e.payload.length)
    (hdeny : (_check_rate_limit rl t c e.time).1 = false) :
    processMessages msz rl h c t (e :: rest) =
      ⟨.sentError rateLimitExceededError ::
          (processMessages msz rl h c
            (_check_rate_limit rl t c e.time).2 rest).outputs,
        (processMessages msz rl h c
          (_check_rate_limit rl t c e.time).2 rest).exit,
        (processMessages msz rl h c
          (_check_rate_limit rl t c e.time).2 rest).table,
        (processMessages msz rl h c
          (_check_rate_limit rl t c e.time).2 rest).handledCount⟩ := by
  simp only [processMessages, if_neg hsize, hdeny, Bool.false_eq_true, if_false]

theorem process_cons_ok (msz rl : Nat) (h : String → HandlerResult)
    (c : String) (t : Table) (e : InMsg) (rest : List InMsg) (resp : String)
    (hsize : ¬ msz < e.payload.length)
    (hallow : (_check_rate_limit rl t c e.time).1 = true)
    (hh : h e.payload = .ok resp) (hsend : e.sendOutcome = .ok) :
    processMessages msz rl h c t (e :: rest) =
      ⟨.sentText resp ::
          (processMessages msz rl h c
            (_check_rate_limit rl t c e.time).2 rest).outputs,
        (processMessages msz rl h c
          (_check_rate_limit rl t c e.time).2 rest).exit,
        (processMessages msz rl h c
          (_check_rate_limit rl t c e.time).2 rest).table,
        (processMessages msz rl h c
          (_check_rate_limit rl t c e.time).2 rest).handledCount + 1⟩ := by
  simp only [processMessages, if_neg hsize, hallow, if_true, hh, hsend]

theorem process_cons_handler_fault (msz rl : Nat) (h : String → HandlerResult)
    (c : String) (t : Table) (e : InMsg) (rest : List InMsg)
    (hsize : ¬ msz < e.payload.length)
    (hallow : (_check_rate_limit rl t c e.time).1 = true)
    (hh : h e.payload = .raises) :
    processMessages msz rl h c t (e :: rest) =
      ⟨[], .errorLogged, (_check_rate_limit rl t c e.time).2, 1⟩ := by
  simp only [processMessages, if_neg hsize, hallow, if_true, hh]

theorem process_cons_send_closed (msz rl : Nat) (h : String → HandlerResult)
    (c : String) (t : Table) (e : InMsg) (rest : List InMsg) (resp : String)
    (hsize : ¬ msz < e.payload.length)
    (hallow : (_check_rate_limit rl t c e.time).1 = true)
    (hh : h e.payload = .ok resp) (hsend : e.sendOutcome = .closedErr) :
    processMessages msz rl h c t (e :: rest) =
      ⟨[], .connClosed, (_check_rate_limit rl t c e.time).2, 1⟩ := by
  simp only [processMessages, if_neg hsize, hallow, if_true, hh, hsend]

theorem process_cons_send_fault (msz rl : Nat) (h : String → HandlerResult)
    (c : String) (t : Table) (e : InMsg) (rest : List InMsg) (resp : String)
    (hsize : ¬ msz < e.payload.length)
    (hallow : (_check_rate_limit rl t c e.time).1 = true)
    (hh : h e.payload = .ok resp) (hsend : e.sendOutcome = .otherErr) :
    processMessages msz rl h c t (e :: rest) =
      ⟨[], .errorLogged, (_check_rate_limit rl t c e.time).2, 1⟩ := by
  simp only [processMessages, if_neg hsize, hallow, if_true, hh, hsend]

theorem broadcastLoop_eq (conns : List Conn) :
    broadcastLoop conns = (conns.filter (fun c => c.isOpen)).map Conn.id := by
  induction conns with
  | nil => rfl
  | cons c rest ih =>
    by_cases hc : c.isOpen
    · simp [broadcastLoop, sendToConn, hc, ih]
    · simp [broadcastLoop, sendToConn, hc, ih]

theorem erase_appended {l : List Nat} {a : Nat} (ha : a ∉ l) :
    (l ++ [a]).erase a = l := by
  rw [List.erase_append_right _ ha]
  simp

/-- Iterating `_check_rate_limit` from a fresh client at a fixed instant:
the `k`-th call (for `k ≤ rate_limit`) is allowed and leaves the stored
count at `k`. -/
theorem rateCalls_fresh (rl : Nat) (c : String) (now : Nat) (t : Table)
    (ht : t c = none) :
    ∀ k, k ≤ rl → (rateCalls rl c now t k).1 = List.replicate k true ∧
      ((rateCalls rl c now t k).2) c =
        if k = 0 then none else some ⟨k, now + 60⟩ := by
  intro k
  induction k with
  | zero => intro _; simpa [rateCalls] using ht
  | succ k ih =>
    intro hk
    obtain ⟨ihres, ihtab⟩ := ih (by omega)
    by_cases hk0 : k = 0
    · subst hk0
      constructor
      · simp only [rateCalls, ihres]
        rw [check_fresh rl t c now ht]
        have h1 : ¬ rl = 0 := by omega
        simp [h1]
      · simp only [rateCalls]
        rw [check_fresh rl t c now ht]
        have h1 : ¬ rl = 0 := by omega
        simp [h1, updateTable_same]
    · have ihtab2 : ((rateCalls rl c now t k).2) c = some ⟨k, now + 60⟩ := by
        rwa [if_neg hk0] at ihtab
      have hres : ¬ (now + 60 < now) := by omega
      have hlt : ¬ rl ≤ k := by omega
      constructor
      · simp only [rateCalls, ihres]
        rw [check_at_window rl _ c now k (now + 60) ihtab2 hres, if_neg hlt]
        simp [List.replicate_succ']
      · simp only [rateCalls]
        rw [check_at_window rl _ c now k (now + 60) ihtab2 hres, if_neg hlt]
        simp [updateTable_same]

/-- Running the receive loop on `m` identical within-window messages
from a client whose stored count is `j`: the first `rl - j` are
dispatched to the handler, every later one is answered with the
rate-limit error, and the loop never terminates early. -/
theorem processReplicate (msz rl : Nat) (h : String → HandlerResult)
    (c : String) (resp payload : String) (now : Nat)
    (hmsz : ¬ msz < payload.length) (hh : h payload = .ok resp) :
    ∀ (m j : Nat) (t : Table), t c = some ⟨j, now + 60⟩ →
      (processMessages msz rl h c t
          (List.replicate m ⟨payload, now, .ok⟩)).outputs =
        List.replicate (min m (rl - j)) (.sentText resp) ++
          List.replicate (m - (rl - j)) (.sentError rateLimitExceededError) ∧
      (processMessages msz rl h c t
          (List.replicate m ⟨payload, now, .ok⟩)).exit = .streamEnded ∧
      (processMessages msz rl h c t
          (List.replicate m ⟨payload, now, .ok⟩)).handledCount =
        min m (rl - j) ∧
      (processMessages msz rl h c t
          (List.replicate m ⟨payload, now, .ok⟩)).table c =
        some ⟨j + min m (rl - j), now + 60⟩ := by
  intro m
  induction m with
  | zero =>
    intro j t ht
    simp [process_nil, ht]
  | succ m ih =>
    intro j t ht
    have hres : ¬ (now + 60 < now) := by omega
    have hch := check_at_window rl t c now j (now + 60) ht hres
    rw [List.replicate_succ]
    by_cases hj : rl ≤ j
    · rw [if_pos hj] at hch
      have hdeny : (_check_rate_limit rl t c
          (InMsg.mk payload now .ok).time).1 = false := by rw [hch]
      have htab : ((_check_rate_limit rl t c
          (InMsg.mk payload now .ok).time).2) c = some ⟨j, now + 60⟩ := by
        rw [hch]; exact updateTable_same t c _
      obtain ⟨o1, o2, o3, o4⟩ := ih j _ htab
      rw [process_cons_denied msz rl h c t _ _ hmsz hdeny]
      have h0 : rl - j = 0 := by omega
      rw [h0] at o1 o3 o4
      refine ⟨?_, by simpa using o2, by simpa [h0] using o3, ?_⟩
      · simp only [o1, h0]
        simp [List.replicate_succ]
      · simpa [h0] using o4
    · rw [if_neg hj] at hch
      have hallow : (_check_rate_limit rl t c
          (InMsg.mk payload now .ok).time).1 = true := by rw [hch]
      have htab : ((_check_rate_limit rl t c
          (InMsg.mk payload now .ok).time).2) c = some ⟨j + 1, now + 60⟩ := by
        rw [hch]; exact updateTable_same t c _
      obtain ⟨o1, o2, o3, o4⟩ := ih (j + 1) _ htab
      rw [process_cons_ok msz rl h c t _ _ resp hmsz hallow hh rfl]
      have e1 : min (m + 1) (rl - j) = min m (rl - (j + 1)) + 1 := by omega
      have e2 : (m + 1) - (rl - j) = m - (rl - (j + 1)) := by omega
      have e3 : (j + 1) + min m (rl - (j + 1)) = j + min (m + 1) (rl - j) := by
        omega
      refine ⟨?_, by simpa using o2, ?_, ?_⟩
      · simp only [o1, e1, e2, List.replicate_succ]
        simp
      · simp only [o3]
        omega
      · simp only [o4, e3]
/-! ## Claim theorems -/

/-- C2: every inbound message strictly longer than `max_message_size` is
answered with the JSON-RPC error object `{jsonrpc: "2.0", error: {code:
-32600, message: "Message too large"}, id: null}`, the request handler
is not invoked for it (the handler call count is that of the remaining
messages), the connection is not closed, and the receive loop continues
with the remaining messages exactly as if the oversized one had not
arrived. -/
theorem oversized_message_rejected (msz rl : Nat) (h : String → HandlerResult)
    (c : String) (t : Table) (e : InMsg) (rest : List InMsg)
    (hsize : msz < e.payload.length) :
    (processMessages msz rl h c t (e :: rest)).outputs =
      .sentError messageTooLargeError ::
        (processMessages msz rl h c t rest).outputs ∧
    (processMessages msz rl h c t (e :: rest)).handledCount =
      (processMessages msz rl h c t rest).handledCount ∧
    (processMessages msz rl h c t (e :: rest)).exit =
      (processMessages msz rl h c t rest).exit ∧
    (processMessages msz rl h c t (e :: rest)).table =
      (processMessages msz rl h c t rest).table ∧
    messageTooLargeError = ⟨"2.0", -32600, "Message too large", none⟩ := by
  rw [process_cons_oversized msz rl h c t e rest hsize]
  exact ⟨rfl, rfl, rfl, rfl, rfl⟩

theorem oversized_message_rejected_witness :
    3 < (InMsg.mk "abcd" 0 .ok).payload.length ∧
    ((processMessages 3 7 (fun _ => HandlerResult.ok "r") "c" emptyTable
        [⟨"abcd", 0, .ok⟩]).outputs =
      .sentError messageTooLargeError ::
        (processMessages 3 7 (fun _ => HandlerResult.ok "r") "c" emptyTable
          []).outputs ∧
    (processMessages 3 7 (fun _ => HandlerResult.ok "r") "c" emptyTable
        [⟨"abcd", 0, .ok⟩]).handledCount =
      (processMessages 3 7 (fun _ => HandlerResult.ok "r") "c" emptyTable
        []).handledCount ∧
    (processMessages 3 7 (fun _ => HandlerResult.ok "r") "c" emptyTable
        [⟨"abcd", 0, .ok⟩]).exit =
      (processMessages 3 7 (fun _ => HandlerResult.ok "r") "c" emptyTable
        []).exit ∧
    (processMessages 3 7 (fun _ => HandlerResult.ok "r") "c" emptyTable
        [⟨"abcd", 0, .ok⟩]).table =
      (processMessages 3 7 (fun _ => HandlerResult.ok "r") "c" emptyTable
        []).table ∧
    messageTooLargeError = ⟨"2.0", -32600, "Message too large", none⟩) :=
  ⟨by decide,
    oversized_message_rejected 3 7 (fun _ => HandlerResult.ok "r") "c"
      emptyTable ⟨"abcd", 0, .ok⟩ [] (by decide)⟩

/-- C10: the size comparison is strict — a message whose length is
exactly `max_message_size` passes the size check and, when the rate
limiter admits it and the handler and send succeed, is forwarded to the
handler like any ordinary message; and no message of length at most
`max_message_size` is ever answered with the "Message too large"
error. -/
theorem size_boundary_exact (msz rl : Nat) (h : String → HandlerResult)
    (c : String) :
    (∀ (t : Table) (e : InMsg) (rest : List InMsg) (resp : String),
      e.payload.length = msz →
      (_check_rate_limit rl t c e.time).1 = true →
      h e.payload = .ok resp → e.sendOutcome = .ok →
      (processMessages msz rl h c t (e :: rest)).outputs =
        .sentText resp :: (processMessages msz rl h c
            (_check_rate_limit rl t c e.time).2 rest).outputs ∧
      (processMessages msz rl h c t (e :: rest)).handledCount =
        (processMessages msz rl h c
            (_check_rate_limit rl t c e.time).2 rest).handledCount + 1) ∧
    (∀ (t : Table) (e : InMsg) (rest : List InMsg),
      e.payload.length ≤ msz →
      (processMessages msz rl h c t (e :: rest)).outputs.head? ≠
        some (.sentError messageTooLargeError)) := by
  constructor
  · intro t e rest resp hlen hallow hh hsend
    have hsize : ¬ msz < e.payload.length := by omega
    rw [process_cons_ok msz rl h c t e rest resp hsize hallow hh hsend]
    exact ⟨rfl, rfl⟩
  · intro t e rest hlen
    have hsize : ¬ msz < e.payload.length := by omega
    cases hr : (_check_rate_limit rl t c e.time).1 with
    | false =>
      rw [process_cons_denied msz rl h c t e rest hsize hr]
      simp [messageTooLargeError, rateLimitExceededError]
    | true =>
      cases hh : h e.payload with
      | raises =>
        rw [process_cons_handler_fault msz rl h c t e rest hsize hr hh]
        simp
      | ok resp =>
        cases hs : e.sendOutcome with
        | ok =>
          rw [process_cons_ok msz rl h c t e rest resp hsize hr hh hs]
          simp
        | closedErr =>
          rw [process_cons_send_closed msz rl h c t e rest resp hsize hr hh hs]
          simp
        | otherErr =>
          rw [process_cons_send_fault msz rl h c t e rest resp hsize hr hh hs]
          simp

theorem size_boundary_exact_witness :
    ((InMsg.mk "ab" 0 .ok).payload.length = 2 ∧
      (_check_rate_limit 5 emptyTable "c" (InMsg.mk "ab" 0 .ok).time).1 = true ∧
      (InMsg.mk "ab" 0 .ok).payload.length ≤ 2) ∧
    ((processMessages 2 5 (fun _ => HandlerResult.ok "r") "c" emptyTable
        [⟨"ab", 0, .ok⟩]).outputs =
      .sentText "r" :: (processMessages 2 5 (fun _ => HandlerResult.ok "r") "c"
          (_check_rate_limit 5 emptyTable "c" (InMsg.mk "ab" 0 .ok).time).2
          []).outputs ∧
    (processMessages 2 5 (fun _ => HandlerResult.ok "r") "c" emptyTable
        [⟨"ab", 0, .ok⟩]).handledCount =
      (processMessages 2 5 (fun _ => HandlerResult.ok "r") "c"
          (_check_rate_limit 5 emptyTable "c" (InMsg.mk "ab" 0 .ok).time).2
          []).handledCount + 1) ∧
    (processMessages 2 5 (fun _ => HandlerResult.ok "r") "c" emptyTable
        [⟨"ab", 0, .ok⟩]).outputs.head? ≠
      some (.sentError messageTooLargeError) :=
  ⟨⟨by decide, by decide, by decide⟩,
    (size_boundary_exact 2 5 (fun _ => HandlerResult.ok "r") "c").1
      emptyTable ⟨"ab", 0, .ok⟩ [] "r" (by decide) (by decide) rfl rfl,
    (size_boundary_exact 2 5 (fun _ => HandlerResult.ok "r") "c").2
      emptyTable ⟨"ab", 0, .ok⟩ [] (by decide)⟩

/-- C5: a connection arriving while the registry already holds at least
`max_connections` entries is closed with the policy-violation code 1008
and the reason string "Maximum connections reached"; the receive loop is
never entered for it, the handler is never invoked on its behalf, and
the registry and rate table are untouched.  A connection arriving below
the maximum is appended to the registry and served by the receive
loop. -/
theorem connection_capacity (maxc msz rl : Nat) (conns : List Nat)
    (t : Table) (connId : Nat) (c : String) (h : String → HandlerResult)
    (events : List InMsg) :
    (maxc ≤ conns.length →
      _handle_client maxc msz rl conns t connId c h events =
        ⟨some (1008, "Maximum connections reached"), none, [], none,
          conns, t, 0⟩) ∧
    (conns.length < maxc →
      (_handle_client maxc msz rl conns t connId c h events).closeFrame =
        none ∧
      (_handle_client maxc msz rl conns t connId c h
          events).servingConnections = some (conns ++ [connId]) ∧
      (_handle_client maxc msz rl conns t connId c h events).outputs =
        (processMessages msz rl h c t events).outputs ∧
      (_handle_client maxc msz rl conns t connId c h events).exit =
        some (processMessages msz rl h c t events).exit ∧
      (_handle_client maxc msz rl conns t connId c h events).handledCount =
        (processMessages msz rl h c t events).handledCount) := by
  constructor
  · intro hcap
    simp [_handle_client, hcap]
  · intro hcap
    have hno : ¬ maxc ≤ conns.length := by omega
    simp [_handle_client, hno]

theorem connection_capacity_witness :
    (1 ≤ ([7] : List Nat).length ∧
      _handle_client 1 10 5 [7] emptyTable 9 "c"
          (fun _ => HandlerResult.ok "r") [] =
        ⟨some (1008, "Maximum connections reached"), none, [], none,
          [7], emptyTable, 0⟩) ∧
    (([7] : List Nat).length < 2 ∧
      ((_handle_client 2 10 5 [7] emptyTable 9 "c"
          (fun _ => HandlerResult.ok "r") []).closeFrame = none ∧
      (_handle_client 2 10 5 [7] emptyTable 9 "c"
          (fun _ => HandlerResult.ok "r") []).servingConnections =
        some ([7] ++ [9]) ∧
      (_handle_client 2 10 5 [7] emptyTable 9 "c"
          (fun _ => HandlerResult.ok "r") []).outputs =
        (processMessages 10 5 (fun _ => HandlerResult.ok "r") "c"
          emptyTable []).outputs ∧
      (_handle_client 2 10 5 [7] emptyTable 9 "c"
          (fun _ => HandlerResult.ok "r") []).exit =
        some (processMessages 10 5 (fun _ => HandlerResult.ok "r") "c"
          emptyTable []).exit ∧
      (_handle_client 2 10 5 [7] emptyTable 9 "c"
          (fun _ => HandlerResult.ok "r") []).handledCount =
        (processMessages 10 5 (fun _ => HandlerResult.ok "r") "c"
          emptyTable []).handledCount)) :=
  ⟨⟨by decide,
      (connection_capacity 1 10 5 [7] emptyTable 9 "c"
        (fun _ => HandlerResult.ok "r") []).1 (by decide)⟩,
    ⟨by decide,
      (connection_capacity 2 10 5 [7] emptyTable 9 "c"
        (fun _ => HandlerResult.ok "r") []).2 (by decide)⟩⟩

/-- C6: for every connection, on every exit path of `_handle_client`
(capacity rejection, clean end of stream, a closed-connection error, or
any exception escaping the handling code) the `finally`-modelled cleanup
leaves the connection out of the registry: a fresh connection id is
absent from the registry once handling terminates, and the registry is
exactly what it was before the connection arrived. -/
theorem connection_cleanup (maxc msz rl : Nat) (conns : List Nat)
    (t : Table) (connId : Nat) (c : String) (h : String → HandlerResult)
    (events : List InMsg) (hid : connId ∉ conns) :
    (_handle_client maxc msz rl conns t connId c h events).connections =
      conns ∧
    connId ∉ (_handle_client maxc msz rl conns t connId c h
      events).connections := by
  by_cases hcap : maxc ≤ conns.length
  · constructor
    · simp [_handle_client, hcap]
    · simp [_handle_client, hcap, hid]
  · constructor
    · simp [_handle_client, hcap, erase_appended hid]
    · simp [_handle_client, hcap, erase_appended hid, hid]

theorem connection_cleanup_witness :
    (5 : Nat) ∉ ([1, 2] : List Nat) ∧
    ((_handle_client 3 10 4 [1, 2] emptyTable 5 "c"
        (fun _ => HandlerResult.ok "r")
        [⟨"m", 0, .ok⟩, ⟨"n", 0, .closedErr⟩]).connections = [1, 2] ∧
    (5 : Nat) ∉ (_handle_client 3 10 4 [1, 2] emptyTable 5 "c"
        (fun _ => HandlerResult.ok "r")
        [⟨"m", 0, .ok⟩, ⟨"n", 0, .closedErr⟩]).connections) :=
  ⟨by decide,
    connection_cleanup 3 10 4 [1, 2] emptyTable 5 "c"
      (fun _ => HandlerResult.ok "r")
      [⟨"m", 0, .ok⟩, ⟨"n", 0, .closedErr⟩] (by decide)⟩

/-- C7: a broadcast builds one JSON-RPC notification whose keys are
exactly `jsonrpc`, `method` and `params` (no `id` key), and attempts
delivery to every registered connection in order; exactly the open
connections receive it, a send failure to a closed connection is swallowed
without affecting the others, and the call always returns normally to
the caller. -/
theorem broadcast_best_effort (conns : List Conn) (m : String) :
    (_broadcast_message conns m).2 =
      (conns.filter (fun c => c.isOpen)).map Conn.id ∧
    (conns ≠ [] →
      (_broadcast_message conns m).1 = some (notificationObject m)) ∧
    (notificationObject m).map Prod.fst = ["jsonrpc", "method", "params"] ∧
    "id" ∉ (notificationObject m).map Prod.fst := by
  refine ⟨?_, ?_, rfl, by simp [notificationObject]⟩
  · by_cases hc : conns = []
    · subst hc; rfl
    · simp [_broadcast_message, hc, broadcastLoop_eq]
  · intro hc
    simp [_broadcast_message, hc]

theorem broadcast_best_effort_witness :
    (([⟨1, true⟩, ⟨2, true⟩, ⟨3, true⟩, ⟨4, false⟩] : List Conn) ≠ []) ∧
    ((_broadcast_message [⟨1, true⟩, ⟨2, true⟩, ⟨3, true⟩, ⟨4, false⟩]
        "hello").2 =
      (([⟨1, true⟩, ⟨2, true⟩, ⟨3, true⟩, ⟨4, false⟩] : List Conn).filter
        (fun c => c.isOpen)).map Conn.id ∧
    (([⟨1, true⟩, ⟨2, true⟩, ⟨3, true⟩, ⟨4, false⟩] : List Conn) ≠ [] →
      (_broadcast_message [⟨1, true⟩, ⟨2, true⟩, ⟨3, true⟩, ⟨4, false⟩]
          "hello").1 = some (notificationObject "hello")) ∧
    (notificationObject "hello").map Prod.fst =
      ["jsonrpc", "method", "params"] ∧
    "id" ∉ (notificationObject "hello").map Prod.fst) :=
  ⟨by decide,
    broadcast_best_effort [⟨1, true⟩, ⟨2, true⟩, ⟨3, true⟩, ⟨4, false⟩]
      "hello"⟩

/-- C8: the TLS step yields a context exactly when the certificate file
exists, the key file exists, and the pair loads; in every other case it
returns no context — so `run` starts the listener on the plain "ws"
scheme — and the step never raises (it is a total function of the
filesystem facts).  The scheme is "wss" precisely in the successful
case. -/
theorem ssl_fallback (env : SslEnv) :
    (_create_ssl_context env).isSome =
      (env.cert_file_exists && env.key_file_exists &&
        env.cert_chain_loads) ∧
    (serverScheme env = "wss" ↔
      (env.cert_file_exists && env.key_file_exists &&
        env.cert_chain_loads) = true) ∧
    (serverScheme env = "ws" ↔
      (env.cert_file_exists && env.key_file_exists &&
        env.cert_chain_loads) = false) := by
  obtain ⟨a, b, c⟩ := env
  cases a <;> cases b <;> cases c <;>
    simp [_create_ssl_context, serverScheme]

/-- C9: within a window (current time not past the stored reset
timestamp) a rate-limit check never decreases the stored count and
never moves the reset timestamp; a new window (fresh count at most 1,
reset timestamp 60 seconds ahead) begins exactly when the current time
strictly passes the stored reset timestamp. -/
theorem window_count_monotone (rl : Nat) (t : Table) (c : String)
    (w : RateWindow) (now : Nat) (hw : t c = some w) :
    (now ≤ w.reset_time →
      ∃ k, ((_check_rate_limit rl t c now).2) c = some ⟨k, w.reset_time⟩ ∧
        w.count ≤ k) ∧
    (w.reset_time < now →
      ∃ k, ((_check_rate_limit rl t c now).2) c = some ⟨k, now + 60⟩ ∧
        k ≤ 1) := by
  constructor
  · intro hnow
    have hres : ¬ w.reset_time < now := by omega
    have hch := check_at_window rl t c now w.count w.reset_time
      (by rw [hw]) hres
    by_cases hlim : rl ≤ w.count
    · rw [if_pos hlim] at hch
      exact ⟨w.count, by rw [hch]; exact updateTable_same t c _, le_refl _⟩
    · rw [if_neg hlim] at hch
      exact ⟨w.count + 1, by rw [hch]; exact updateTable_same t c _,
        by omega⟩
  · intro hres
    have hch := check_reset_time rl t c now w.count w.reset_time
      (by rw [hw]) hres
    by_cases h0 : rl = 0
    · rw [if_pos h0] at hch
      exact ⟨0, by rw [hch]; exact updateTable_same t c _, by omega⟩
    · rw [if_neg h0] at hch
      exact ⟨1, by rw [hch]; exact updateTable_same t c _, le_refl _⟩

theorem window_count_monotone_witness :
    (updateTable emptyTable "c" ⟨2, 100⟩) "c" = some ⟨2, 100⟩ ∧
    (∃ k, ((_check_rate_limit 5 (updateTable emptyTable "c" ⟨2, 100⟩)
        "c" 50).2) "c" = some ⟨k, 100⟩ ∧ 2 ≤ k) ∧
    (∃ k, ((_check_rate_limit 5 (updateTable emptyTable "c" ⟨2, 100⟩)
        "c" 150).2) "c" = some ⟨k, 150 + 60⟩ ∧ k ≤ 1) :=
  ⟨by decide,
    (window_count_monotone 5 (updateTable emptyTable "c" ⟨2, 100⟩) "c"
      ⟨2, 100⟩ 50 (by decide)).1 (by decide),
    (window_count_monotone 5 (updateTable emptyTable "c" ⟨2, 100⟩) "c"
      ⟨2, 100⟩ 150 (by decide)).2 (by decide)⟩

/-- C4 (original claim, refuted at the boundary): at a time exactly 60
seconds past the window start — equal to the stored reset timestamp —
the window is NOT reinitialised and a client denied at the limit is
still denied.  Window start 0, reset timestamp 60, limit 1, stored
count 1, check at time 60: the check returns false and leaves the
window unchanged, contradicting the reading "after exactly 60 seconds
the counter resets" that the claim takes from the spec. -/
theorem reset_at_exact_boundary_cex :
    (_check_rate_limit 1 (updateTable emptyTable "c" ⟨1, 60⟩) "c" 60).1 =
      false ∧
    ((_check_rate_limit 1 (updateTable emptyTable "c" ⟨1, 60⟩) "c"
      60).2) "c" = some ⟨1, 60⟩ := by
  decide

/-- C4 (amended): once the current time strictly exceeds the stored
reset timestamp (strictly more than 60 seconds past the window start),
the next rate-limit check for that identity reinitialises the window —
for a positive configured limit it returns true and stores count 1 with
a new reset timestamp 60 seconds in the future — so a client previously
denied at the limit is allowed again. -/
theorem reset_after_boundary (rl : Nat) (t : Table) (c : String)
    (w : RateWindow) (now : Nat) (hw : t c = some w)
    (hres : w.reset_time < now) (hrl : 1 ≤ rl) :
    (_check_rate_limit rl t c now).1 = true ∧
    ((_check_rate_limit rl t c now).2) c = some ⟨1, now + 60⟩ := by
  have hch := check_reset_time rl t c now w.count w.reset_time
    (by rw [hw]) hres
  rw [if_neg (by omega)] at hch
  exact ⟨by rw [hch], by rw [hch]; exact updateTable_same t c _⟩

theorem reset_after_boundary_witness :
    ((updateTable emptyTable "c" ⟨1, 60⟩) "c" = some ⟨1, 60⟩ ∧
      (60 : Nat) < 61 ∧ (1 : Nat) ≤ 1) ∧
    ((_check_rate_limit 1 (updateTable emptyTable "c" ⟨1, 60⟩) "c"
        61).1 = true ∧
      ((_check_rate_limit 1 (updateTable emptyTable "c" ⟨1, 60⟩) "c"
        61).2) "c" = some ⟨1, 61 + 60⟩) :=
  ⟨⟨by decide, by decide, by decide⟩,
    reset_after_boundary 1 (updateTable emptyTable "c" ⟨1, 60⟩) "c"
      ⟨1, 60⟩ 61 (by decide) (by decide) (by decide)⟩

/-- C3: for a fresh client identity and configured limit N ≥ 1, within
one 60-second window the first N rate-limit checks return true and the
(N+1)-th returns false leaving the stored count at N; consequently, in
the receive loop, each of the first N within-window requests is
forwarded to the handler and answered with its response, while the
(N+1)-th receives the JSON-RPC error `-32000` / "Rate limit exceeded" /
id null and is not forwarded (the handler runs exactly N times). -/
theorem rate_limit_excess_request (rl msz : Nat)
    (h : String → HandlerResult) (c : String) (t : Table) (now : Nat)
    (resp payload : String) (hrl : 1 ≤ rl) (hfresh : t c = none)
    (hmsz : ¬ msz < payload.length) (hh : h payload = .ok resp) :
    (rateCalls rl c now t (rl + 1)).1 =
      List.replicate rl true ++ [false] ∧
    ((rateCalls rl c now t (rl + 1)).2) c = some ⟨rl, now + 60⟩ ∧
    (processMessages msz rl h c t
        (List.replicate (rl + 1) ⟨payload, now, .ok⟩)).outputs =
      List.replicate rl (.sentText resp) ++
        [.sentError rateLimitExceededError] ∧
    (processMessages msz rl h c t
        (List.replicate (rl + 1) ⟨payload, now, .ok⟩)).handledCount = rl ∧
    (processMessages msz rl h c t
        (List.replicate (rl + 1) ⟨payload, now, .ok⟩)).exit =
      .streamEnded ∧
    rateLimitExceededError = ⟨"2.0", -32000, "Rate limit exceeded", none⟩ := by
  obtain ⟨p1, p2⟩ := rateCalls_fresh rl c now t hfresh rl (le_refl rl)
  rw [if_neg (by omega)] at p2
  have hres : ¬ (now + 60 < now) := by omega
  have hch := check_at_window rl _ c now rl (now + 60) p2 hres
  rw [if_pos (le_refl rl)] at hch
  refine ⟨?_, ?_, ?_, ?_, ?_, rfl⟩
  · simp only [rateCalls]
    rw [p1, hch]
  · simp only [rateCalls]
    rw [hch]
    exact updateTable_same _ c _
  all_goals {
    have hchf := check_fresh rl t c now hfresh
    rw [if_neg (by omega)] at hchf
    have hallow : (_check_rate_limit rl t c
        (InMsg.mk payload now .ok).time).1 = true := by rw [hchf]
    have htab1 : ((_check_rate_limit rl t c
        (InMsg.mk payload now .ok).time).2) c = some ⟨1, now + 60⟩ := by
      rw [hchf]; exact updateTable_same t c _
    obtain ⟨q1, q2, q3, q4⟩ :=
      processReplicate msz rl h c resp payload now hmsz hh rl 1 _ htab1
    have e1 : min rl (rl - 1) = rl - 1 := by omega
    have e2 : rl - (rl - 1) = 1 := by omega
    rw [e1, e2] at q1
    rw [e1] at q3
    rw [List.replicate_succ,
      process_cons_ok msz rl h c t _ _ resp hmsz hallow hh rfl]
    first
    | · show Output.sentText resp :: _ = _
        rw [q1]
        rw [show rl = (rl - 1) + 1 by omega]
        simp [List.replicate_succ]
    | · show _ + 1 = rl
        rw [q3]; omega
    | · exact q2
  }

theorem rate_limit_excess_request_witness :
    ((1 : Nat) ≤ 2 ∧ emptyTable "a" = none ∧
      ¬ (5 : Nat) < ("m" : String).length ∧
      (fun _ : String => HandlerResult.ok "r") "m" = .ok "r") ∧
    ((rateCalls 2 "a" 0 emptyTable (2 + 1)).1 =
      List.replicate 2 true ++ [false] ∧
    ((rateCalls 2 "a" 0 emptyTable (2 + 1)).2) "a" = some ⟨2, 0 + 60⟩ ∧
    (processMessages 5 2 (fun _ => HandlerResult.ok "r") "a" emptyTable
        (List.replicate (2 + 1) ⟨"m", 0, .ok⟩)).outputs =
      List.replicate 2 (.sentText "r") ++
        [.sentError rateLimitExceededError] ∧
    (processMessages 5 2 (fun _ => HandlerResult.ok "r") "a" emptyTable
        (List.replicate (2 + 1) ⟨"m", 0, .ok⟩)).handledCount = 2 ∧
    (processMessages 5 2 (fun _ => HandlerResult.ok "r") "a" emptyTable
        (List.replicate (2 + 1) ⟨"m", 0, .ok⟩)).exit = .streamEnded ∧
    rateLimitExceededError = ⟨"2.0", -32000, "Rate limit exceeded", none⟩) :=
  ⟨⟨by decide, rfl, by decide, rfl⟩,
    rate_limit_excess_request 2 5 (fun _ => HandlerResult.ok "r") "a"
      emptyTable 0 "r" "m" (by decide) rfl (by decide) rfl⟩

/-- C1 (original claim, refuted): the per-message catch the spec
describes does not exist — the `try`/`except` of `_handle_client` wraps
the whole receive loop, so an unexpected handler exception on one
message terminates the loop instead of being logged and continuing to
the next message of the same connection.  Concretely: with limits
well above use, a handler that raises on "m1" and answers "m2", the
loop over ["m1", "m2"] ends in the generic caught-exception branch
after exactly one handler call and sends nothing — the second message
of the same connection is never processed and its response never
sent. -/
theorem handler_fault_not_per_message_cex :
    (processMessages 10 100
        (fun s => if s = "m2" then HandlerResult.ok "r2"
          else HandlerResult.raises)
        "c" emptyTable [⟨"m1", 0, .ok⟩, ⟨"m2", 0, .ok⟩]).exit =
      .errorLogged ∧
    (processMessages 10 100
        (fun s => if s = "m2" then HandlerResult.ok "r2"
          else HandlerResult.raises)
        "c" emptyTable [⟨"m1", 0, .ok⟩, ⟨"m2", 0, .ok⟩]).handledCount = 1 ∧
    (processMessages 10 100
        (fun s => if s = "m2" then HandlerResult.ok "r2"
          else HandlerResult.raises)
        "c" emptyTable [⟨"m1", 0, .ok⟩, ⟨"m2", 0, .ok⟩]).outputs = [] := by
  decide

/-- C1 (amended): an unexpected exception raised by the handler or by
the send of its response is caught per-connection, not per-message: it
terminates the receive loop for that connection — the remaining
messages are not processed, no further output is sent, and the handler
is not invoked again — landing in the generic logged-exception branch,
while a closed-connection error from the send lands in the
closed-connection branch; either way only the loop of that connection
ends and the `finally` cleanup still runs. -/
theorem handler_fault_terminates_loop (msz rl : Nat)
    (h : String → HandlerResult) (c : String) (t : Table) (e : InMsg)
    (rest : List InMsg) (hsize : ¬ msz < e.payload.length)
    (hallow : (_check_rate_limit rl t c e.time).1 = true) :
    (h e.payload = .raises →
      processMessages msz rl h c t (e :: rest) =
        ⟨[], .errorLogged, (_check_rate_limit rl t c e.time).2, 1⟩) ∧
    (∀ resp, h e.payload = .ok resp → e.sendOutcome = .closedErr →
      processMessages msz rl h c t (e :: rest) =
        ⟨[], .connClosed, (_check_rate_limit rl t c e.time).2, 1⟩) ∧
    (∀ resp, h e.payload = .ok resp → e.sendOutcome = .otherErr →
      processMessages msz rl h c t (e :: rest) =
        ⟨[], .errorLogged, (_check_rate_limit rl t c e.time).2, 1⟩) :=
  ⟨fun hh =>
      process_cons_handler_fault msz rl h c t e rest hsize hallow hh,
    fun resp hh hs =>
      process_cons_send_closed msz rl h c t e rest resp hsize hallow hh hs,
    fun resp hh hs =>
      process_cons_send_fault msz rl h c t e rest resp hsize hallow hh hs⟩

theorem handler_fault_terminates_loop_witness :
    (¬ (5 : Nat) < (InMsg.mk "m" 0 .ok).payload.length ∧
      (_check_rate_limit 9 emptyTable "c" (InMsg.mk "m" 0 .ok).time).1 =
        true ∧
      (fun _ : String => HandlerResult.raises) (InMsg.mk "m" 0 .ok).payload =
        .raises) ∧
    processMessages 5 9 (fun _ => HandlerResult.raises) "c" emptyTable
        [⟨"m", 0, .ok⟩, ⟨"n", 0, .ok⟩] =
      ⟨[], .errorLogged,
        (_check_rate_limit 9 emptyTable "c" (InMsg.mk "m" 0 .ok).time).2,
        1⟩ :=
  ⟨⟨by decide, by decide, rfl⟩,
    (handler_fault_terminates_loop 5 9 (fun _ => HandlerResult.raises) "c"
      emptyTable ⟨"m", 0, .ok⟩ [⟨"n", 0, .ok⟩] (by decide) (by decide)).1
      rfl⟩

end LunoTransport
